import Mathlib

/-!
Verification development for the powercontrol repository
(powersupply.py and coil.py).

Numeric values are modelled as rationals.  Python percent-formatting of a
float to n decimal places is modelled as rounding to the nearest multiple
of 10 ^ (-n), with ties broken toward the even digit as in C printf.
The serial transport is modelled by a device oracle mapping each command
to the decoded response it produces; byte framing (start and stop
markers) sits below the layer treated here, and the response-decoding
step of PowerSupply._write (powersupply.py lines 122-139) is modelled
over already UTF-8-decoded payload strings.
-/

set_option autoImplicit false

/-- Round half to even, the rounding applied by C printf (and hence by the
percent-format strings in the source) to exact decimal inputs.  Written
with Rat.floor so that it evaluates inside the kernel; away from ties it
agrees with Mathlib round. -/
def rhe (x : ℚ) : ℤ :=
  if x - Rat.floor x = 1 / 2 then
    (if Rat.floor x % 2 = 0 then Rat.floor x else Rat.floor x + 1)
  else Rat.floor (x + 1 / 2)

/-- Models float applied to a percent-5.4f formatting of x (4 decimal places),
as in coil.py line 71. -/
def fmt4 (x : ℚ) : ℚ := (rhe (10000 * x) : ℚ) / 10000

/-- Models percent-05.2f formatting of x (2 decimal places),
as in powersupply.py line 258. -/
def fmt2 (x : ℚ) : ℚ := (rhe (100 * x) : ℚ) / 100

/-- Models percent-05.1f formatting of x (1 decimal place),
as in powersupply.py line 361. -/
def fmt1 (x : ℚ) : ℚ := (rhe (10 * x) : ℚ) / 10

/-- The value PowerSupply._write returns after decoding: an empty payload
is returned as the empty bytearray (Empty), a payload containing a token
of digits dot digit becomes a float (Numeric), anything else stays a
string (Text). -/
inductive Response where
  | Empty : Response
  | Numeric : ℚ → Response
  | Text : String → Response
deriving DecidableEq

/-- A command written to the device: verb plus optional formatted numeric
argument, mirroring the strings built in powersupply.py
(STAT?, IDN?, VOLT v, VOLT?, CURR c, CURR?). -/
structure Cmd where
  verb : String
  arg : Option ℚ
deriving DecidableEq

/-- The error taxonomy of the spec: the three exceptions raised by
PowerSupply.parseErrorMessages plus the incorrect-mode exceptions raised
in get_voltage and set_current.  The unknown variant carries the raw
value handed to parseErrorMessages. -/
inductive DeviceError where
  | syntaxError : DeviceError
  | outOfRange : DeviceError
  | unknown : Response → DeviceError
  | incorrectMode : String → String → DeviceError
deriving DecidableEq

/-- A Python-level failure of an operation: either a raised device error,
or the TypeError raised by calling len on a float (which happens in
set_voltage and set_current when _write returns a number). -/
inductive PyErr where
  | dev : DeviceError → PyErr
  | typeErr : PyErr
deriving DecidableEq

/-- The classification performed by PowerSupply.parseErrorMessages
(powersupply.py lines 141-162): Syntax Error and Out Of Range map to
their specific errors, anything else to an unknown-device error carrying
the raw message. -/
def classify_error (message : Response) : DeviceError :=
  if message = .Text "Syntax Error" then .syntaxError
  else if message = .Text "Out Of Range" then .outOfRange
  else .unknown message

/-- PowerSupply.parseErrorMessages itself: every branch raises, so the
function never returns normally; the raised exception is the
classification of the message. -/
def parseErrorMessages (message : Response) : Except DeviceError Unit :=
  Except.error (classify_error message)

/-- Numeric value of a list of decimal digit characters. -/
def digitsToNat (l : List Char) : ℕ :=
  l.foldl (fun a c => 10 * a + (c.toNat - 48)) 0

/-- Attempt to match the regular expression digits-dot-digit at the head
of s, with the digit run greedy, exactly as the pattern in
powersupply.py line 132 matches at one position.  Returns the matched
token. -/
def matchAt (s : List Char) : Option (List Char) :=
  let run := s.takeWhile Char.isDigit
  if run.isEmpty then none
  else
    match s.drop run.length with
    | '.' :: d :: _ => if d.isDigit then some (run ++ ['.', d]) else none
    | _ => none

/-- re.search of the pattern digits-dot-digit: scan left to right and
return the first match. -/
def searchNum : List Char → Option (List Char)
  | [] => none
  | c :: cs =>
    match matchAt (c :: cs) with
    | some t => some t
    | none => searchNum cs

/-- Python float applied to a matched token (digit run, dot, digits):
exact decimal value as a rational. -/
def tokValue (t : List Char) : ℚ :=
  let ip := t.takeWhile Char.isDigit
  let fp := t.drop (ip.length + 1)
  (digitsToNat ip : ℚ) + (digitsToNat fp : ℚ) / 10 ^ fp.length

/-- The response-decoding step of PowerSupply._write (lines 122-139):
empty payload returned as is, otherwise the first token matching
digits-dot-digit is parsed as a float, otherwise the raw string is
returned. -/
def decode_response (p : String) : Response :=
  if p = "" then .Empty
  else
    match searchNum p.data with
    | some t => .Numeric (tokValue t)
    | none => .Text p

def CMD_STAT : Cmd := ⟨"STAT?", none⟩

def CMD_VOLTQ : Cmd := ⟨"VOLT?", none⟩

def CMD_CURRQ : Cmd := ⟨"CURR?", none⟩

/-- Outcome of one PowerSupply operation: the returned value or raised
exception, the port state when the operation terminates, and the list of
commands written to the device, in order.  The port state models
self.portOpen; during an operation the port is open (after the
_automated_open at its head) and _automated_close restores the initial
state only on the normal return path, since the source has no
try-finally. -/
structure OpResult (α : Type) where
  res : Except PyErr α
  portOpen : Bool
  trace : List Cmd

/-- PowerSupply.check_mode (lines 164-185): write STAT?, and route any
response other than CV or CC through parseErrorMessages (which raises);
otherwise return the response. -/
def check_mode (dev : Cmd → Response) : Except DeviceError Response :=
  let out := dev CMD_STAT
  if out ≠ .Text "CV" ∧ out ≠ .Text "CC" then .error (classify_error out)
  else .ok out

/-- PowerSupply.set_voltage (lines 239-266): open, write VOLT with the
value formatted to 2 decimals, raise via parseErrorMessages on any
non-empty textual response (len of a float raises TypeError), close only
on the normal path.  No mode check is performed. -/
def set_voltage (dev : Cmd → Response) (port0 : Bool) (v : ℚ) : OpResult Unit :=
  let cmd : Cmd := ⟨"VOLT", some (fmt2 v)⟩
  match dev cmd with
  | .Numeric _ => ⟨.error .typeErr, true, [cmd]⟩
  | .Empty => ⟨.ok (), port0, [cmd]⟩
  | .Text t =>
    if t = "" then ⟨.ok (), port0, [cmd]⟩
    else ⟨.error (.dev (classify_error (.Text t))), true, [cmd]⟩

/-- PowerSupply.get_voltage (lines 268-298): open, check_mode, raise
incorrect-mode unless the mode is CV, then write VOLT? and require a
numeric response; close only on the normal path. -/
def get_voltage (dev : Cmd → Response) (port0 : Bool) : OpResult ℚ :=
  match check_mode dev with
  | .error e => ⟨.error (.dev e), true, [CMD_STAT]⟩
  | .ok out =>
    if out ≠ .Text "CV" then
      ⟨.error (.dev (.incorrectMode "CV" "CC")), true, [CMD_STAT]⟩
    else
      match dev CMD_VOLTQ with
      | .Numeric q => ⟨.ok q, port0, [CMD_STAT, CMD_VOLTQ]⟩
      | r => ⟨.error (.dev (classify_error r)), true, [CMD_STAT, CMD_VOLTQ]⟩

/-- PowerSupply.get_current (lines 300-327): open, write CURR?, require a
numeric response, convert milliamps to amps; close only on the normal
path.  No mode check is performed. -/
def get_current (dev : Cmd → Response) (port0 : Bool) : OpResult ℚ :=
  match dev CMD_CURRQ with
  | .Numeric q => ⟨.ok (q * (1 / 1000)), port0, [CMD_CURRQ]⟩
  | r => ⟨.error (.dev (classify_error r)), true, [CMD_CURRQ]⟩

/-- PowerSupply.set_current (lines 329-370): open, check_mode, raise
incorrect-mode unless the mode is CC, convert amps to milliamps, format
to 1 decimal, write CURR, raise via parseErrorMessages on any non-empty
textual response (len of a float raises TypeError), close only on the
normal path. -/
def set_current (dev : Cmd → Response) (port0 : Bool) (c : ℚ) : OpResult Unit :=
  match check_mode dev with
  | .error e => ⟨.error (.dev e), true, [CMD_STAT]⟩
  | .ok out =>
    if out ≠ .Text "CC" then
      ⟨.error (.dev (.incorrectMode "CC" "CV")), true, [CMD_STAT]⟩
    else
      let cmd : Cmd := ⟨"CURR", some (fmt1 (1000 * c))⟩
      match dev cmd with
      | .Numeric _ => ⟨.error .typeErr, true, [CMD_STAT, cmd]⟩
      | .Empty => ⟨.ok (), port0, [CMD_STAT, cmd]⟩
      | .Text t =>
        if t = "" then ⟨.ok (), port0, [CMD_STAT, cmd]⟩
        else ⟨.error (.dev (classify_error (.Text t))), true, [CMD_STAT, cmd]⟩

/-- Whether an operation outcome is a raised incorrect-mode exception. -/
def isIncorrectMode {α : Type} : Except PyErr α → Bool
  | .error (.dev (.incorrectMode _ _)) => true
  | _ => false

/-- Whether an Except value is a normal return. -/
def exceptOk {ε α : Type} : Except ε α → Bool
  | .ok _ => true
  | .error _ => false

/-- State of a Coil object (coil.py lines 9-104): calibration gain,
cached supply current and cached coil field. -/
structure CoilState where
  field_gain : ℚ
  current : ℚ
  coil_field : ℚ
deriving DecidableEq

/-- Coil.set_coil_field (coil.py lines 49-79).  The Bool records whether
a device write (supply.set_current) was issued: the guard compares the
requested value against the cached coil_field and skips the write when
they are equal; otherwise the current is formatted to 4 decimals, the
cached field recomputed from the formatted current, and the write
issued. -/
def set_coil_field (s : CoilState) (field_value : ℚ) : CoilState × Bool :=
  if field_value ≠ s.coil_field then
    let current := fmt4 (field_value / s.field_gain)
    (⟨s.field_gain, current, current * s.field_gain⟩, true)
  else (s, false)

/-- State of a CoilWithCorrection object (coil.py lines 108-200). -/
structure DualCoilState where
  field_gain : ℚ
  current : ℚ
  coil_field : ℚ
  smallCoilFieldGain : ℚ
  voltageGain : ℚ
  dacVoltage : ℚ
  minPowerSupplyCurrentStep : ℚ
  smallCoilField : ℚ
  smallFieldValue : ℚ
  net_coil_field : ℚ
deriving DecidableEq

/-- CoilWithCorrection.setSmallCoilField (coil.py lines 133-150): stores
the requested value in smallFieldValue and the corresponding op-amp
voltage in dacVoltage.  It does not touch smallCoilField. -/
def setSmallCoilField (s : DualCoilState) (fieldValue : ℚ) : DualCoilState :=
  { s with smallFieldValue := fieldValue,
           dacVoltage := fieldValue / s.smallCoilFieldGain * s.voltageGain }

/-- The renormalization guard of CoilWithCorrection.setField (coil.py
lines 161-185): with step = minPowerSupplyCurrentStep * field_gain,
range = 2.5 * step and offset = 3.5 * step, the branch issuing the
coarse re-command is taken exactly when the delta fieldValue - coil_field
is above offset + range or below offset - range. -/
def renormTrigger (s : DualCoilState) (fieldValue : ℚ) : Prop :=
  let minimumStep := s.minPowerSupplyCurrentStep * s.field_gain
  let smallCoilFieldRange := (5 / 2 : ℚ) * minimumStep
  let coil_fieldOffset := minimumStep * (7 / 2 : ℚ)
  let maximumChangeInField := coil_fieldOffset + smallCoilFieldRange
  let minimumChangeInField := coil_fieldOffset - smallCoilFieldRange
  let smallFieldValue := fieldValue - s.coil_field
  smallFieldValue > maximumChangeInField ∨ smallFieldValue < minimumChangeInField

instance renormTriggerDec (s : DualCoilState) (fieldValue : ℚ) :
    Decidable (renormTrigger s fieldValue) := by
  unfold renormTrigger
  infer_instance

/-- CoilWithCorrection.setField (coil.py lines 152-200), modelled
faithfully: the renormalize branch calls self.setcoil_field, a method
that does not exist on the class (the Coil method is named
set_coil_field), so Python raises AttributeError there and the call
aborts.  On the in-band path the fine setpoint is stored via
setSmallCoilField and net_coil_field is set to the requested value. -/
def setField (s : DualCoilState) (fieldValue : ℚ) : Except String DualCoilState :=
  let s1 := { s with smallFieldValue := fieldValue - s.coil_field }
  if renormTrigger s fieldValue then
    .error "AttributeError: setcoil_field is not defined; the Coil method is named set_coil_field"
  else
    let s2 := setSmallCoilField s1 (fieldValue - s1.coil_field)
    .ok { s2 with net_coil_field := fieldValue }

/-- Concrete single-coil state with gain 1 and cached field 0. -/
def c3s : CoilState := ⟨1, 0, 0⟩

/-- Concrete dual-coil state for the trigger table of the spec: gain 10
T per amp makes the coarse step 0.001. -/
def sC1 : DualCoilState := ⟨10, 0, 0, 1, 250, 0, 1 / 10000, 0, 0, 0⟩

/-- Concrete dual-coil state for the end-to-end example of the spec:
coarse gain 0.05 T per amp, coarse actuator at 0 amps. -/
def sC2 : DualCoilState := ⟨1 / 20, 0, 0, 1, 250, 0, 1 / 10000, 0, 0, 0⟩

/-- Concrete dual-coil state used for the net-field invariant claim. -/
def sC9 : DualCoilState := ⟨1, 0, 0, 1, 250, 0, 1 / 10000, 0, 0, 0⟩

/-- The state produced by setField sC9 (3 / 10000). -/
def sC9out : DualCoilState :=
  ⟨1, 0, 0, 1, 250, 3 / 40, 1 / 10000, 0, 3 / 10000, 3 / 10000⟩

/-- Device oracle for the set-then-get current claim: the supply reports
mode CC, answers current queries with the stored milliamp value, and
acknowledges set commands silently. -/
def c8dev (stored : ℚ) : Cmd → Response := fun cmd =>
  if cmd = CMD_STAT then .Text "CC"
  else if cmd = CMD_CURRQ then .Numeric stored
  else .Empty

/-- Device oracle answering every command with the text Syntax Error. -/
def devSyn : Cmd → Response := fun _ => .Text "Syntax Error"

/-- Device oracle acknowledging every command silently. -/
def devEmpty : Cmd → Response := fun _ => .Empty

/-- Rat.floor agrees with the Mathlib floor on the rationals. -/
lemma ratFloor_eq (x : ℚ) : Rat.floor x = ⌊x⌋ :=
  (Rat.floor_def' x).trans Rat.floor_def.symm

/-- rhe written with the Mathlib floor and fractional part. -/
lemma rhe_eq (x : ℚ) :
    rhe x =
      if Int.fract x = 1 / 2 then (if ⌊x⌋ % 2 = 0 then ⌊x⌋ else ⌊x⌋ + 1)
      else ⌊x + 1 / 2⌋ := by
  unfold rhe
  rw [ratFloor_eq (x + 1 / 2), ratFloor_eq x, Int.self_sub_floor]

/-- Evaluation of rhe away from ties. -/
lemma rhe_eval (x : ℚ) (n : ℤ) (h1 : x - ⌊x⌋ ≠ 1 / 2) (h2 : ⌊x + 1 / 2⌋ = n) :
    rhe x = n := by
  rw [rhe_eq, if_neg (by rw [Int.fract]; exact h1), h2]

/-- rhe rounds to the nearest integer: the distance is at most one half. -/
lemma abs_rhe_sub (x : ℚ) : |(rhe x : ℚ) - x| ≤ 1 / 2 := by
  rw [rhe_eq]
  split
  case isTrue h =>
    have hx : x - ⌊x⌋ = 1 / 2 := by rw [Int.self_sub_floor]; exact h
    split
    · rw [abs_le]
      constructor <;> linarith
    · rw [abs_le]
      push_cast
      constructor <;> linarith
  case isFalse h =>
    rw [← round_eq, abs_sub_comm]
    exact abs_sub_round x

/-- The classification raised through parseErrorMessages is never the
incorrect-mode error: that one is raised directly in get_voltage and
set_current. -/
lemma isIncorrectMode_classify {α : Type} (r : Response) :
    isIncorrectMode (α := α) (.error (.dev (classify_error r))) = false := by
  rw [classify_error]
  split
  · rfl
  · split <;> rfl

/-- The scan returns none exactly when no position of the string starts a
match of the digits-dot-digit pattern. -/
lemma searchNum_none_iff (s : List Char) :
    searchNum s = none ↔ ∀ i, matchAt (s.drop i) = none := by
  induction s with
  | nil =>
    simp only [searchNum, List.drop_nil, true_iff]
    intro i
    rfl
  | cons c cs ih =>
    simp only [searchNum]
    cases h : matchAt (c :: cs) with
    | some t =>
      simp only [reduceCtorEq, false_iff, not_forall]
      exact ⟨0, by simp [h]⟩
    | none =>
      rw [ih]
      constructor
      · intro hall i
        cases i with
        | zero => simpa using h
        | succ j => simpa using hall j
      · intro hall i
        simpa using hall (i + 1)

/-- Whatever the scan returns is the match at the leftmost matching
position: every earlier position fails to match. -/
lemma searchNum_some (s t : List Char) (h : searchNum s = some t) :
    ∃ i, matchAt (s.drop i) = some t ∧ ∀ j, j < i → matchAt (s.drop j) = none := by
  induction s generalizing t with
  | nil => simp [searchNum] at h
  | cons c cs ih =>
    rw [searchNum] at h
    cases hm : matchAt (c :: cs) with
    | some u =>
      rw [hm] at h
      refine ⟨0, by simpa [hm] using h, ?_⟩
      intro j hj
      omega
    | none =>
      rw [hm] at h
      obtain ⟨i, h1, h2⟩ := ih t h
      refine ⟨i + 1, by simpa using h1, ?_⟩
      intro j hj
      cases j with
      | zero => simpa using hm
      | succ k => simpa using h2 k (by omega)

/-- Claim C1: in the dual-actuator setField, the renormalization branch
(the one issuing the coarse re-command) is taken exactly when
delta = target - coarse contribution lies strictly outside the closed
band from offset - fine_range to offset + fine_range; moreover with a
coarse step of 0.001 (gain 10 T per amp times the 0.0001 amp supply
step), a delta of 3.5 steps (0.0035) does not trigger it and a delta of
6.1 steps (0.0061) does. -/
theorem C1_renorm_band :
    (∀ (s : DualCoilState) (fv : ℚ),
      renormTrigger s fv ↔
        (fv - s.coil_field) ∉
          Set.Icc
            (s.minPowerSupplyCurrentStep * s.field_gain * (7 / 2) -
              5 / 2 * (s.minPowerSupplyCurrentStep * s.field_gain))
            (s.minPowerSupplyCurrentStep * s.field_gain * (7 / 2) +
              5 / 2 * (s.minPowerSupplyCurrentStep * s.field_gain))) ∧
    ¬ renormTrigger sC1 (35 / 10000) ∧ renormTrigger sC1 (61 / 10000) := by
  refine ⟨fun s fv => ?_, by norm_num [renormTrigger, sC1], by norm_num [renormTrigger, sC1]⟩
  rw [renormTrigger, Set.mem_Icc, not_and_or, not_le, not_le]
  constructor
  · rintro (h | h)
    · right
      linarith
    · left
      linarith
  · rintro (h | h)
    · right
      linarith
    · left
      linarith

/-- Claim C2 (code bug): a setField call whose delta lies outside the
band reaches the renormalize branch, which calls the nonexistent method
setcoil_field (the Coil method is named set_coil_field), so the call
raises AttributeError instead of re-commanding the coarse actuator.
Shown at the end-to-end example of the spec: gain 0.05 T per amp, coarse
actuator at 0, target 0.05 T. -/
theorem C2_setField_renorm_crashes :
    setField sC2 (1 / 20) =
      .error "AttributeError: setcoil_field is not defined; the Coil method is named set_coil_field" := by
  rw [setField, if_pos (by norm_num [renormTrigger, sC2])]

/-- Claim C3, counterexample: with gain 1 and cached field 0, requesting
the field 0.12346 twice issues a device write on both calls, because the
first call caches the quantized field 0.1235 which differs from the
requested value, so the second call writes again.  The claim as stated
(exactly one device write for every repeated value) is false. -/
theorem C3_counterexample :
    (set_coil_field c3s (6173 / 50000)).2 = true ∧
    (set_coil_field (set_coil_field c3s (6173 / 50000)).1 (6173 / 50000)).2 = true := by
  have hf : fmt4 (6173 / 50000 / c3s.field_gain) = 247 / 2000 := by
    have h : rhe (10000 * (6173 / 50000 / c3s.field_gain)) = 1235 := by
      apply rhe_eval <;> norm_num [c3s]
    rw [fmt4, h]
    norm_num
  have hs : (set_coil_field c3s (6173 / 50000)).1 = ⟨1, 247 / 2000, 247 / 2000⟩ := by
    rw [set_coil_field, if_pos (by norm_num [c3s]), hf]
    simp [c3s]
  refine ⟨?_, ?_⟩
  · rw [set_coil_field, if_pos (by norm_num [c3s])]
  · rw [hs, set_coil_field, if_pos (by norm_num)]

/-- Claim C3, amended: two successive set_coil_field calls with the same
value x issue exactly one device write precisely when x survives
quantization, that is when fmt4 (x / gain) * gain = x; otherwise the
second call issues a second write.  The no-op guard compares x with the
cached quantized field, not with the previously requested value. -/
theorem C3_amended (s : CoilState) (x : ℚ) (h : x ≠ s.coil_field) :
    (set_coil_field s x).2 = true ∧
    ((set_coil_field (set_coil_field s x).1 x).2 = false ↔
      fmt4 (x / s.field_gain) * s.field_gain = x) := by
  have hs1 : (set_coil_field s x).1 =
      ⟨s.field_gain, fmt4 (x / s.field_gain), fmt4 (x / s.field_gain) * s.field_gain⟩ := by
    rw [set_coil_field, if_pos h]
  refine ⟨by rw [set_coil_field, if_pos h], ?_⟩
  by_cases h2 : fmt4 (x / s.field_gain) * s.field_gain = x
  · rw [hs1, set_coil_field, if_neg (not_ne_iff.2 h2.symm)]
    simp [h2]
  · rw [hs1, set_coil_field, if_pos (fun he => h2 he.symm)]
    simp [h2]

/-- Witness for the amended claim C3 at gain 1 and x = 0.125, a value
that survives quantization, so the second call performs no write. -/
theorem C3_amended_witness :
    ((1 : ℚ) / 8 ≠ c3s.coil_field) ∧
    ((set_coil_field c3s (1 / 8)).2 = true ∧
      ((set_coil_field (set_coil_field c3s (1 / 8)).1 (1 / 8)).2 = false ↔
        fmt4 (1 / 8 / c3s.field_gain) * c3s.field_gain = 1 / 8)) :=
  ⟨by norm_num [c3s], C3_amended c3s (1 / 8) (by norm_num [c3s])⟩

/-- Claim C4, counterexample: get_current on a closed port with a device
that answers the text Syntax Error opens the port, raises through
parseErrorMessages, and terminates with the port still open, because the
source has no try-finally around the automated close.  The claim as
stated (on every exit path the port is closed iff the operation opened
it) is therefore false on the error exit. -/
theorem C4_counterexample :
    (get_current devSyn false).res = .error (.dev .syntaxError) ∧
    (get_current devSyn false).portOpen = true := by
  constructor
  · simp [get_current, devSyn, classify_error]
  · simp [get_current, devSyn]

/-- Claim C4, amended: for each of the four operations, the final port
state equals the initial one on a normal return (closed again iff the
operation opened it, and a port that was already open stays open), while
on an error exit the automatic close is skipped and the port is left
open. -/
theorem C4_amended (dev : Cmd → Response) (p0 : Bool) (v c : ℚ) :
    (set_voltage dev p0 v).portOpen =
      (if exceptOk (set_voltage dev p0 v).res then p0 else true) ∧
    (get_voltage dev p0).portOpen =
      (if exceptOk (get_voltage dev p0).res then p0 else true) ∧
    (get_current dev p0).portOpen =
      (if exceptOk (get_current dev p0).res then p0 else true) ∧
    (set_current dev p0 c).portOpen =
      (if exceptOk (set_current dev p0 c).res then p0 else true) := by
  refine ⟨?_, ?_, ?_, ?_⟩
  · rw [set_voltage]
    rcases dev ⟨"VOLT", some (fmt2 v)⟩ with _ | q | t
    · rfl
    · rfl
    · by_cases ht : t = "" <;> simp [ht, exceptOk]
  · rw [get_voltage]
    cases hcm : check_mode dev with
    | error e => rfl
    | ok out =>
      dsimp only
      by_cases hcv : out = .Text "CV"
      · rw [if_neg (not_ne_iff.2 hcv)]
        cases hv : dev CMD_VOLTQ with
        | Empty => rfl
        | Numeric q => rfl
        | Text t => rfl
      · rw [if_pos hcv]
        rfl
  · rw [get_current]
    cases hv : dev CMD_CURRQ with
    | Empty => rfl
    | Numeric q => rfl
    | Text t => rfl
  · rw [set_current]
    cases hcm : check_mode dev with
    | error e => rfl
    | ok out =>
      dsimp only
      by_cases hcc : out = .Text "CC"
      · rw [if_neg (not_ne_iff.2 hcc)]
        cases hv : dev ⟨"CURR", some (fmt1 (1000 * c))⟩ with
        | Empty => rfl
        | Numeric q => rfl
        | Text t =>
          dsimp only
          by_cases ht : t = ""
          · rw [if_pos ht]
            rfl
          · rw [if_neg ht]
            rfl
      · rw [if_pos hcc]
        rfl

/-- Claim C5: response decoding returns Empty exactly on the empty
payload; when the scan finds a token the payload decodes to that token
parsed as a number, and the token found is the match at the leftmost
matching position of the digits-dot-digit pattern; when no position
matches, a non-empty payload decodes to the raw text. -/
theorem C5_decode (p : String) :
    (decode_response p = .Empty ↔ p = "") ∧
    (∀ t, searchNum p.data = some t →
      decode_response p = .Numeric (tokValue t) ∧
      ∃ i, matchAt (p.data.drop i) = some t ∧
        ∀ j, j < i → matchAt (p.data.drop j) = none) ∧
    (p ≠ "" → (∀ i, matchAt (p.data.drop i) = none) → decode_response p = .Text p) := by
  refine ⟨?_, ?_, ?_⟩
  · constructor
    · intro h
      by_contra hp
      rw [decode_response, if_neg hp] at h
      cases hs : searchNum p.data with
      | some t => rw [hs] at h; cases h
      | none => rw [hs] at h; cases h
    · intro h
      simp [decode_response, h]
  · intro t ht
    have hp : p ≠ "" := by
      intro he
      subst he
      cases ht
    exact ⟨by rw [decode_response, if_neg hp, ht], searchNum_some _ _ ht⟩
  · intro hp hall
    rw [decode_response, if_neg hp, (searchNum_none_iff _).2 hall]

/-- Witness for claim C5: in the payload ab12.34 the scan finds the
first token 12.3 (one digit after the point, digits greedy before it)
and decoding returns it parsed as a number. -/
theorem C5_witness :
    searchNum "ab12.34".data = some ['1', '2', '.', '3'] ∧
    decode_response "ab12.34" = .Numeric (tokValue ['1', '2', '.', '3']) :=
  ⟨by decide, ((C5_decode "ab12.34").2.1 ['1', '2', '.', '3'] (by decide)).1⟩

/-- Claim C6: a mode-guarded operation raises the incorrect-mode error
exactly when the mode query returns CV or CC and it differs from the
required mode (CC for set_current, CV for get_voltage); when the
returned mode matches, no incorrect-mode error is ever raised, whatever
the rest of the exchange does. -/
theorem C6_mode_guard (dev : Cmd → Response) (p0 : Bool) (c : ℚ) :
    (isIncorrectMode (set_current dev p0 c).res = true ↔
      ((dev CMD_STAT = .Text "CV" ∨ dev CMD_STAT = .Text "CC") ∧
        dev CMD_STAT ≠ .Text "CC")) ∧
    (isIncorrectMode (get_voltage dev p0).res = true ↔
      ((dev CMD_STAT = .Text "CV" ∨ dev CMD_STAT = .Text "CC") ∧
        dev CMD_STAT ≠ .Text "CV")) := by
  constructor
  · by_cases h2 : dev CMD_STAT = .Text "CC"
    · have hcm : check_mode dev = .ok (.Text "CC") := by simp [check_mode, h2]
      rw [set_current, hcm]
      dsimp only
      rw [if_neg (not_ne_iff.2 rfl)]
      cases hv : dev ⟨"CURR", some (fmt1 (1000 * c))⟩ with
      | Empty => simp [isIncorrectMode, h2]
      | Numeric q => simp [isIncorrectMode, h2]
      | Text t =>
        dsimp only
        by_cases ht : t = ""
        · rw [if_pos ht]
          simp [isIncorrectMode, h2]
        · rw [if_neg ht]
          simp [isIncorrectMode_classify, h2]
    · by_cases h1 : dev CMD_STAT = .Text "CV"
      · have hcm : check_mode dev = .ok (.Text "CV") := by simp [check_mode, h1]
        rw [set_current, hcm]
        dsimp only
        rw [if_pos (by decide)]
        simp [isIncorrectMode, h1, h2]
      · have hcm : check_mode dev = .error (classify_error (dev CMD_STAT)) := by
          rw [check_mode, if_pos (And.intro h1 h2)]
        rw [set_current, hcm]
        simp [isIncorrectMode_classify, h1, h2]
  · by_cases h1 : dev CMD_STAT = .Text "CV"
    · have hcm : check_mode dev = .ok (.Text "CV") := by simp [check_mode, h1]
      rw [get_voltage, hcm]
      dsimp only
      rw [if_neg (not_ne_iff.2 rfl)]
      cases hv : dev CMD_VOLTQ with
      | Empty => simp [isIncorrectMode_classify, h1]
      | Numeric q => simp [isIncorrectMode, h1]
      | Text t => simp [isIncorrectMode_classify, h1]
    · by_cases h2 : dev CMD_STAT = .Text "CC"
      · have hcm : check_mode dev = .ok (.Text "CC") := by simp [check_mode, h2]
        rw [get_voltage, hcm]
        dsimp only
        rw [if_pos (by decide)]
        simp [isIncorrectMode, h1, h2]
      · have hcm : check_mode dev = .error (classify_error (dev CMD_STAT)) := by
          rw [check_mode, if_pos (And.intro h1 h2)]
        rw [get_voltage, hcm]
        simp [isIncorrectMode_classify, h1, h2]

/-- Claim C7, counterexample: set_voltage writes its VOLT command with no
mode query at all: the trace of a run is exactly the one VOLT command
and contains no STAT?.  The claim as stated (a mode check before every
voltage-class or current-class command) is therefore false. -/
theorem C7_counterexample :
    (set_voltage devEmpty false 5).trace = [⟨"VOLT", some 5⟩] ∧
    CMD_STAT ∉ (set_voltage devEmpty false 5).trace := by
  have h5 : fmt2 5 = 5 := by
    have h : rhe (100 * (5 : ℚ)) = 500 := by
      apply rhe_eval <;> norm_num
    rw [fmt2, h]
    norm_num
  have ht : (set_voltage devEmpty false 5).trace = [⟨"VOLT", some 5⟩] := by
    rw [set_voltage]
    dsimp only [devEmpty]
    rw [h5]
  refine ⟨ht, ?_⟩
  rw [ht]
  intro hmem
  simp only [List.mem_singleton, CMD_STAT] at hmem
  exact absurd (congrArg Cmd.verb hmem) (by decide)

/-- Claim C7, amended: the mode query STAT? precedes the data command
only in get_voltage and set_current; set_voltage issues its VOLT command
and get_current its CURR? query with no mode query at all. -/
theorem C7_amended (dev : Cmd → Response) (p0 : Bool) (v c : ℚ) :
    (set_voltage dev p0 v).trace = [⟨"VOLT", some (fmt2 v)⟩] ∧
    (get_current dev p0).trace = [CMD_CURRQ] ∧
    ((get_voltage dev p0).trace = [CMD_STAT] ∨
      (get_voltage dev p0).trace = [CMD_STAT, CMD_VOLTQ]) ∧
    ((set_current dev p0 c).trace = [CMD_STAT] ∨
      (set_current dev p0 c).trace = [CMD_STAT, ⟨"CURR", some (fmt1 (1000 * c))⟩]) := by
  refine ⟨?_, ?_, ?_, ?_⟩
  · rw [set_voltage]
    cases hv : dev ⟨"VOLT", some (fmt2 v)⟩ with
    | Empty => rfl
    | Numeric q => rfl
    | Text t =>
      dsimp only
      by_cases ht : t = ""
      · rw [if_pos ht]
      · rw [if_neg ht]
  · rw [get_current]
    cases hv : dev CMD_CURRQ with
    | Empty => rfl
    | Numeric q => rfl
    | Text t => rfl
  · rw [get_voltage]
    cases hcm : check_mode dev with
    | error e => left; rfl
    | ok out =>
      dsimp only
      by_cases hcv : out = .Text "CV"
      · rw [if_neg (not_ne_iff.2 hcv)]
        cases hv : dev CMD_VOLTQ with
        | Empty => right; rfl
        | Numeric q => right; rfl
        | Text t => right; rfl
      · rw [if_pos hcv]
        left
        rfl
  · rw [set_current]
    cases hcm : check_mode dev with
    | error e => left; rfl
    | ok out =>
      dsimp only
      by_cases hcc : out = .Text "CC"
      · rw [if_neg (not_ne_iff.2 hcc)]
        cases hv : dev ⟨"CURR", some (fmt1 (1000 * c))⟩ with
        | Empty => right; rfl
        | Numeric q => right; rfl
        | Text t =>
          dsimp only
          by_cases ht : t = ""
          · rw [if_pos ht]
            right
            rfl
          · rw [if_neg ht]
            right
            rfl
      · rw [if_pos hcc]
        left
        rfl

/-- Claim C8: under the device model where the supply stores the
commanded milliamp value and reports it back, set_current of an in-range
current c succeeds (the commanded value is the 1-decimal milliamp
formatting of 1000 c), and a following get_current returns that value
converted back to amps, which lies within one quantization step
(0.0001 A) of c. -/
theorem C8_set_get_current (c : ℚ) (h0 : 0 ≤ c) (h1 : c ≤ 9999 / 10000) :
    (set_current (c8dev (fmt1 (1000 * c))) true c).res = .ok () ∧
    (set_current (c8dev (fmt1 (1000 * c))) true c).trace =
      [CMD_STAT, ⟨"CURR", some (fmt1 (1000 * c))⟩] ∧
    (get_current (c8dev (fmt1 (1000 * c))) true).res =
      .ok (fmt1 (1000 * c) * (1 / 1000)) ∧
    |fmt1 (1000 * c) * (1 / 1000) - c| ≤ 1 / 10000 := by
  have hstat : c8dev (fmt1 (1000 * c)) CMD_STAT = .Text "CC" := rfl
  have hcurrq : c8dev (fmt1 (1000 * c)) CMD_CURRQ = .Numeric (fmt1 (1000 * c)) := rfl
  have hset : c8dev (fmt1 (1000 * c)) ⟨"CURR", some (fmt1 (1000 * c))⟩ = .Empty := rfl
  have hcm : check_mode (c8dev (fmt1 (1000 * c))) = .ok (.Text "CC") := by
    simp [check_mode, hstat]
  refine ⟨?_, ?_, ?_, ?_⟩
  · rw [set_current, hcm]
    dsimp only
    rw [if_neg (not_ne_iff.2 rfl), hset]
  · rw [set_current, hcm]
    dsimp only
    rw [if_neg (not_ne_iff.2 rfl), hset]
  · rw [get_current, hcurrq]
  · have hb := abs_rhe_sub (10 * (1000 * c))
    have he : fmt1 (1000 * c) * (1 / 1000) - c =
        ((rhe (10 * (1000 * c)) : ℚ) - 10 * (1000 * c)) / 10000 := by
      rw [fmt1]
      ring
    rw [he, abs_le]
    rw [abs_le] at hb
    constructor <;> linarith [hb.1, hb.2]

/-- Witness for claim C8 at c = 0.1234 A: the commanded value is 123.4
milliamps and the read-back equals c exactly. -/
theorem C8_witness :
    (0 : ℚ) ≤ 617 / 5000 ∧ (617 / 5000 : ℚ) ≤ 9999 / 10000 ∧
    ((set_current (c8dev (fmt1 (1000 * (617 / 5000)))) true (617 / 5000)).res = .ok () ∧
      (set_current (c8dev (fmt1 (1000 * (617 / 5000)))) true (617 / 5000)).trace =
        [CMD_STAT, ⟨"CURR", some (fmt1 (1000 * (617 / 5000)))⟩] ∧
      (get_current (c8dev (fmt1 (1000 * (617 / 5000)))) true).res =
        .ok (fmt1 (1000 * (617 / 5000)) * (1 / 1000)) ∧
      |fmt1 (1000 * (617 / 5000)) * (1 / 1000) - 617 / 5000| ≤ 1 / 10000) :=
  ⟨by norm_num, by norm_num,
    C8_set_get_current (617 / 5000) (by norm_num) (by norm_num)⟩

/-- Claim C9, counterexample: a completed in-band setField call records
net_coil_field = target but the smallCoilField attribute used in the
initializer formula net = coil_field + smallCoilField is never updated,
so the recorded net field differs from coil_field + smallCoilField. -/
theorem C9_counterexample :
    setField sC9 (3 / 10000) = .ok sC9out ∧
    sC9out.net_coil_field ≠ sC9out.coil_field + sC9out.smallCoilField := by
  constructor
  · rw [setField, if_neg (by norm_num [renormTrigger, sC9])]
    simp only [setSmallCoilField, sC9, sC9out]
    norm_num
  · norm_num [sC9out]

/-- Claim C9, amended: after every completed setField call the recorded
net field equals the coarse contribution plus the fine setpoint
smallFieldValue (the value the fine-actuator write path stores), while
coil_field and the never-updated smallCoilField keep their previous
values; the identity with smallCoilField itself fails whenever the fine
setpoint is nonzero. -/
theorem C9_amended (s : DualCoilState) (fv : ℚ) (s2 : DualCoilState)
    (h : setField s fv = .ok s2) :
    s2.net_coil_field = s2.coil_field + s2.smallFieldValue ∧
    s2.coil_field = s.coil_field ∧
    s2.smallCoilField = s.smallCoilField := by
  by_cases hr : renormTrigger s fv
  · rw [setField, if_pos hr] at h
    cases h
  · rw [setField, if_neg hr] at h
    injection h with h2
    subst h2
    refine ⟨?_, rfl, rfl⟩
    simp only [setSmallCoilField]
    ring

/-- Witness for the amended claim C9 at the in-band call of sC9. -/
theorem C9_witness :
    setField sC9 (3 / 10000) = .ok sC9out ∧
    (sC9out.net_coil_field = sC9out.coil_field + sC9out.smallFieldValue ∧
      sC9out.coil_field = sC9.coil_field ∧
      sC9out.smallCoilField = sC9.smallCoilField) := by
  have h : setField sC9 (3 / 10000) = .ok sC9out := by
    rw [setField, if_neg (by norm_num [renormTrigger, sC9])]
    simp only [setSmallCoilField, sC9, sC9out]
    norm_num
  exact ⟨h, C9_amended sC9 (3 / 10000) sC9out h⟩

/-- Claim C10: parseErrorMessages never returns normally: every input is
turned into a raised exception, with Syntax Error and Out Of Range
mapped to their specific errors and any other text to an unknown-device
error that preserves the raw message; consequently an operation that
routes a textual response through it (here get_current) always
terminates in an error. -/
theorem C10_parse_always_raises :
    (∀ r : Response, parseErrorMessages r = .error (classify_error r)) ∧
    classify_error (.Text "Syntax Error") = .syntaxError ∧
    classify_error (.Text "Out Of Range") = .outOfRange ∧
    (∀ s : String, s ≠ "Syntax Error" → s ≠ "Out Of Range" →
      classify_error (.Text s) = .unknown (.Text s)) ∧
    (∀ (dev : Cmd → Response) (p0 : Bool) (s : String),
      dev CMD_CURRQ = .Text s → exceptOk (get_current dev p0).res = false) := by
  refine ⟨fun r => rfl, rfl, rfl, fun s h1 h2 => ?_, fun dev p0 s h => ?_⟩
  · simp [classify_error, h1, h2]
  · rw [get_current, h]
    rfl

/-- Witness for claim C10: benign text is still raised as an unknown
error preserving the raw string, and a get_current receiving text
terminates in an error. -/
theorem C10_witness :
    classify_error (.Text "Hello") = .unknown (.Text "Hello") ∧
    exceptOk (get_current devSyn false).res = false :=
  ⟨C10_parse_always_raises.2.2.2.1 "Hello" (by decide) (by decide),
    C10_parse_always_raises.2.2.2.2 devSyn false "Syntax Error" rfl⟩
